import Mathlib

set_option maxRecDepth 10000

/-
Verification development for the FPL snapshot comparison engine
(src/compare_data.py).  The comparator and renderer are shallowly
embedded:

* a JSON player/fixture record becomes a Lean structure whose fields are
  `Option`-valued where the Python code may find the key absent
  (a dict access `p['k']` on an absent key raises `KeyError`, modelled by
  `Except.error (PyErr.keyError "k")`);
* Python floats are modelled as exact rationals; `float(s)` on a decimal
  string literal is `parseFloat`, returning `none` (a `ValueError`) on a
  non-numeric string;
* the dict comprehensions `{p['id']: p for p in ...}` are modelled by
  `dedupKeys` (first-occurrence key order) together with `lookupLast`
  (later duplicates overwrite earlier ones, the source's
  last-write-wins behaviour).  CPython iterates `set` differences and
  intersections in an unspecified hash order; the embedding fixes the
  first-occurrence order of the corresponding snapshot, and all
  theorems below depend only on facts that are insensitive to that
  choice (set-level membership, emptiness, or stability relative to the
  accumulation order itself);
* the report of `generate_comparison_report` (source lines 194-276) is
  modelled as the list of its lines, as a function of the two date
  labels and the two comparison results (the file-loading part of that
  function is I/O plumbing outside the comparison core).
-/

/-- A Python exception escaping the comparator: `KeyError` carries the
missing dict key, `ValueError` comes from `float()` on a bad string. -/
inductive PyErr where
  | keyError : String → PyErr
  | valueError : PyErr
deriving DecidableEq, Repr

/-- A raw player record as found in the JSON snapshot.  Every field is
optional: the Python code accesses most of them with `p['k']` (raising
`KeyError` when absent) and some with `p.get(k, default)`. -/
structure PlayerRec where
  id : Option Int
  web_name : Option String
  team : Option Int
  now_cost : Option Int
  selected_by_percent : Option String
  status : Option String
  news : Option String
  form : Option String
deriving DecidableEq, Repr

/-- A raw fixture record.  The fields read by `compare_fixtures` are
modelled; `team_h_score`/`team_a_score` are `Option Int` (JSON `null`
for unfinished games) and `kickoff_time` is read with `.get`, so it is
optional as well. -/
structure FixtureRec where
  id : Int
  event : Int
  team_h : Int
  team_a : Int
  finished : Bool
  team_h_score : Option Int
  team_a_score : Option Int
  kickoff_time : Option String
deriving DecidableEq, Repr

/-- Entry appended to `comparison['price_changes']`. -/
structure PriceChange where
  name : String
  old_price : ℚ
  new_price : ℚ
  change : ℚ
deriving DecidableEq, Repr

/-- Entry appended to `comparison['ownership_changes']`. -/
structure OwnershipChange where
  name : String
  old_ownership : ℚ
  new_ownership : ℚ
  change : ℚ
deriving DecidableEq, Repr

/-- Entry appended to `comparison['injury_updates']`. -/
structure InjuryUpdate where
  name : String
  old_status : String
  new_status : String
  news : String
deriving DecidableEq, Repr

/-- Entry appended to `comparison['form_changes']`. -/
structure FormChange where
  name : String
  old_form : ℚ
  new_form : ℚ
  change : ℚ
deriving DecidableEq, Repr

/-- Entry appended to `comparison['new_players']`. -/
structure NewPlayer where
  name : String
  team : Int
  price : ℚ
deriving DecidableEq, Repr

/-- Entry appended to `comparison['removed_players']`. -/
structure RemovedPlayer where
  name : String
  team : Int
deriving DecidableEq, Repr

/-- The dict returned by `compare_players`. -/
structure PlayerComparison where
  price_changes : List PriceChange
  ownership_changes : List OwnershipChange
  injury_updates : List InjuryUpdate
  form_changes : List FormChange
  new_players : List NewPlayer
  removed_players : List RemovedPlayer
deriving DecidableEq, Repr

/-- Entry appended to `comparison['new_results']` by `compare_fixtures`. -/
structure NewResult where
  gameweek : Int
  home_team : Int
  away_team : Int
  score : String
deriving DecidableEq, Repr

/-- Entry appended to `comparison['fixture_changes']` by `compare_fixtures`. -/
structure FixtureTimeChange where
  gameweek : Int
  home_team : Int
  away_team : Int
  old_time : Option String
  new_time : Option String
deriving DecidableEq, Repr

/-- The dict returned by `compare_fixtures`. -/
structure FixtureComparison where
  new_results : List NewResult
  fixture_changes : List FixtureTimeChange
deriving DecidableEq, Repr

/-- What one iteration of the common-player loop contributes to each of
the four field-diff categories (`none` when that check emitted nothing). -/
structure Deltas where
  price : Option PriceChange
  own : Option OwnershipChange
  inj : Option InjuryUpdate
  frm : Option FormChange
deriving DecidableEq, Repr

/-- Value of an all-digit character list read in base 10. -/
def natOfDigits (cs : List Char) : Nat :=
  cs.foldl (fun a c => a * 10 + (c.toNat - 48)) 0

/-- Unsigned part of Python `float()` on a decimal literal: digits with
at most one decimal point, at least one digit overall. -/
def parseFloatCore (cs : List Char) : Option ℚ :=
  let ip := cs.takeWhile (fun c => c ≠ '.')
  let rest := cs.dropWhile (fun c => c ≠ '.')
  match rest with
  | [] => if ip ≠ [] ∧ ip.all Char.isDigit then some ((natOfDigits ip : ℚ)) else none
  | _ :: fp =>
      if (ip ≠ [] ∨ fp ≠ []) ∧ ip.all Char.isDigit ∧ fp.all Char.isDigit then
        some ((natOfDigits ip : ℚ) + (natOfDigits fp : ℚ) / ((10 : ℚ) ^ fp.length))
      else none

/-- The whitespace stripping `float()` applies to its argument. -/
def trimChars (cs : List Char) : List Char :=
  ((cs.dropWhile Char.isWhitespace).reverse.dropWhile Char.isWhitespace).reverse

/-- Python `float(s)` restricted to optionally signed decimal literals,
the shape the FPL API uses for `selected_by_percent` and `form`;
`none` models the `ValueError` raised on any other string. -/
def parseFloat (s : String) : Option ℚ :=
  match trimChars s.toList with
  | '-' :: cs => (parseFloatCore cs).map (fun q => -q)
  | '+' :: cs => parseFloatCore cs
  | cs => parseFloatCore cs

/-- `float(p['selected_by_percent'])` as an optional value: `none` when
the key is absent or the string does not parse. -/
def ownVal (p : PlayerRec) : Option ℚ :=
  match p.selected_by_percent with
  | some s => parseFloat s
  | none => none

/-- `float(p.get('form', 0))`: an absent key defaults to `0`, a present
string must parse. -/
def formParse : Option String → Option ℚ
  | none => some 0
  | some s => parseFloat s

/-- Price-change check for one common player (source lines 86-92):
`p['now_cost']` on both sides, emit when the raw costs differ.
`web_name` is read only when an entry is emitted. -/
def priceCheck (old_p new_p : PlayerRec) : Except PyErr (Option PriceChange) :=
  match old_p.now_cost, new_p.now_cost with
  | none, _ => .error (.keyError "now_cost")
  | some _, none => .error (.keyError "now_cost")
  | some oc, some nc =>
      if oc = nc then .ok none
      else
        match new_p.web_name with
        | none => .error (.keyError "web_name")
        | some nm => .ok (some ⟨nm, (oc : ℚ) / 10, (nc : ℚ) / 10, ((nc : ℚ) - (oc : ℚ)) / 10⟩)

/-- Ownership check (source lines 95-103): both `selected_by_percent`
strings are parsed unconditionally and a parse failure is *not* caught
here, mirroring the bare `float(...)` calls; the entry is emitted only
when the absolute difference strictly exceeds 2.0. -/
def ownershipCheck (old_p new_p : PlayerRec) : Except PyErr (Option OwnershipChange) :=
  match old_p.selected_by_percent with
  | none => .error (.keyError "selected_by_percent")
  | some os =>
    match parseFloat os with
    | none => .error .valueError
    | some ov =>
      match new_p.selected_by_percent with
      | none => .error (.keyError "selected_by_percent")
      | some ns =>
        match parseFloat ns with
        | none => .error .valueError
        | some nv =>
          if (2 : ℚ) < |nv - ov| then
            match new_p.web_name with
            | none => .error (.keyError "web_name")
            | some nm => .ok (some ⟨nm, ov, nv, nv - ov⟩)
          else .ok none

/-- Injury-status check (source lines 106-112): emit when the status
strings differ; `news` is read with `.get('news', '')`. -/
def statusCheck (old_p new_p : PlayerRec) : Except PyErr (Option InjuryUpdate) :=
  match old_p.status, new_p.status with
  | none, _ => .error (.keyError "status")
  | some _, none => .error (.keyError "status")
  | some ost, some nst =>
      if ost = nst then .ok none
      else
        match new_p.web_name with
        | none => .error (.keyError "web_name")
        | some nm => .ok (some ⟨nm, ost, nst, new_p.news.getD ""⟩)

/-- Form check (source lines 115-126): the whole block sits in
`try ... except (ValueError, TypeError): pass`, so a parse failure on
either side silently skips the check; the threshold is a strict 1.0.
A `KeyError` on `web_name` inside the block is *not* in the except
tuple and so still escapes. -/
def formCheck (old_p new_p : PlayerRec) : Except PyErr (Option FormChange) :=
  match formParse old_p.form, formParse new_p.form with
  | some ov, some nv =>
      if (1 : ℚ) < |nv - ov| then
        match new_p.web_name with
        | none => .error (.keyError "web_name")
        | some nm => .ok (some ⟨nm, ov, nv, nv - ov⟩)
      else .ok none
  | _, _ => .ok none

/-- One iteration of the common-player loop (source lines 81-126), the
four checks in source order, stopping at the first uncaught exception. -/
def comparePair (old_p new_p : PlayerRec) : Except PyErr Deltas :=
  match priceCheck old_p new_p with
  | .error e => .error e
  | .ok pr =>
    match ownershipCheck old_p new_p with
    | .error e => .error e
    | .ok ow =>
      match statusCheck old_p new_p with
      | .error e => .error e
      | .ok st =>
        match formCheck old_p new_p with
        | .error e => .error e
        | .ok fr => .ok ⟨pr, ow, st, fr⟩

/-- The `p['id']` reads performed while building `{p['id']: p for p in ps}`:
every record must carry an `id`, otherwise `KeyError` is raised. -/
def idsOf (ps : List PlayerRec) : Except PyErr (List Int) :=
  match ps with
  | [] => .ok []
  | p :: rest =>
    match p.id with
    | none => .error (.keyError "id")
    | some i =>
      match idsOf rest with
      | .error e => .error e
      | .ok l => .ok (i :: l)

/-- Key order of a dict built by comprehension: first occurrence of each
key, in input order. -/
def dedupKeys : List Int → List Int
  | [] => []
  | x :: xs => x :: (dedupKeys xs).filter (fun y => decide (y ≠ x))

/-- Value stored in the comprehension dict for key `i`: the *last*
record carrying that id (later duplicates overwrite earlier ones). -/
def lookupLast (ps : List PlayerRec) (i : Int) : Option PlayerRec :=
  match ps with
  | [] => none
  | p :: rest =>
    match lookupLast rest i with
    | some q => some q
    | none => if p.id = some i then some p else none

/-- Building one `new_players` entry (source lines 68-72): reads
`web_name`, `team`, `now_cost` of the new record, in that order. -/
def mkNewEntry : Option PlayerRec → Except PyErr NewPlayer
  | none => .error (.keyError "id")
  | some p =>
    match p.web_name with
    | none => .error (.keyError "web_name")
    | some nm =>
      match p.team with
      | none => .error (.keyError "team")
      | some tm =>
        match p.now_cost with
        | none => .error (.keyError "now_cost")
        | some c => .ok ⟨nm, tm, (c : ℚ) / 10⟩

/-- Building one `removed_players` entry (source lines 74-78). -/
def mkRemovedEntry : Option PlayerRec → Except PyErr RemovedPlayer
  | none => .error (.keyError "id")
  | some p =>
    match p.web_name with
    | none => .error (.keyError "web_name")
    | some nm =>
      match p.team with
      | none => .error (.keyError "team")
      | some tm => .ok ⟨nm, tm⟩

/-- Run an effectful step over a list, stopping at the first raised
exception, exactly like a Python `for` loop of fallible statements. -/
def mapME {α β : Type} (f : α → Except PyErr β) : List α → Except PyErr (List β)
  | [] => .ok []
  | x :: xs =>
    match f x with
    | .error e => .error e
    | .ok y =>
      match mapME f xs with
      | .error e => .error e
      | .ok ys => .ok (y :: ys)

/-- Processing of one common id: fetch both dict values and diff them.
Both lookups succeed whenever the id really is common; the error arm is
the (unreachable) dict miss. -/
def pairAt (old new : List PlayerRec) (i : Int) : Except PyErr Deltas :=
  match lookupLast old i, lookupLast new i with
  | some p, some q => comparePair p q
  | _, _ => .error (.keyError "id")

/-- `compare_players` (source lines 49-128): index both snapshots by id,
emit new/removed entries from the key-set differences, then diff every
common id.  The first uncaught exception aborts the whole comparison. -/
def comparePlayers (old new : List PlayerRec) : Except PyErr PlayerComparison :=
  match idsOf old with
  | .error e => .error e
  | .ok oldIds =>
    match idsOf new with
    | .error e => .error e
    | .ok newIds =>
      match mapME (fun i => mkNewEntry (lookupLast new i))
          ((dedupKeys newIds).filter (fun i => decide (i ∉ oldIds))) with
      | .error e => .error e
      | .ok nps =>
        match mapME (fun i => mkRemovedEntry (lookupLast old i))
            ((dedupKeys oldIds).filter (fun i => decide (i ∉ newIds))) with
        | .error e => .error e
        | .ok rps =>
          match mapME (pairAt old new)
              ((dedupKeys oldIds).filter (fun i => decide (i ∈ newIds))) with
          | .error e => .error e
          | .ok ds =>
            .ok ⟨ds.filterMap Deltas.price, ds.filterMap Deltas.own,
                 ds.filterMap Deltas.inj, ds.filterMap Deltas.frm, nps, rps⟩

/-- Dict value for a fixture id, last write wins. -/
def lookupLastF (fs : List FixtureRec) (i : Int) : Option FixtureRec :=
  match fs with
  | [] => none
  | f :: rest =>
    match lookupLastF rest i with
    | some g => some g
    | none => if f.id = i then some f else none

/-- Python `str(x)` for a nullable integer: `str(None) = "None"`. -/
def pyOptInt : Option Int → String
  | none => "None"
  | some n => toString n

/-- Newly-finished check (source lines 145-151): fires when `finished`
flips from false to true; the score string interpolates the two
(nullable) scores. -/
def resCheck (old_f new_f : FixtureRec) : Option NewResult :=
  if old_f.finished = false ∧ new_f.finished = true then
    some ⟨new_f.event, new_f.team_h, new_f.team_a,
          pyOptInt new_f.team_h_score ++ "-" ++ pyOptInt new_f.team_a_score⟩
  else none

/-- Kickoff-time check (source lines 154-161): fires when the two
`.get('kickoff_time')` values differ (absent counts as `None`). -/
def timeCheck (old_f new_f : FixtureRec) : Option FixtureTimeChange :=
  if old_f.kickoff_time ≠ new_f.kickoff_time then
    some ⟨new_f.event, new_f.team_h, new_f.team_a, old_f.kickoff_time, new_f.kickoff_time⟩
  else none

/-- Both per-fixture checks for one common id. -/
def fixPair (old new : List FixtureRec) (i : Int) : Option NewResult × Option FixtureTimeChange :=
  match lookupLastF old i, lookupLastF new i with
  | some f, some g => (resCheck f g, timeCheck f g)
  | _, _ => (none, none)

/-- `compare_fixtures` (source lines 130-163): only ids present in both
snapshots are examined; fixtures appearing in just one snapshot
contribute nothing. -/
def compareFixtures (old new : List FixtureRec) : FixtureComparison :=
  let newIds := new.map FixtureRec.id
  let commons := (dedupKeys (old.map FixtureRec.id)).filter (fun i => decide (i ∈ newIds))
  let ents := commons.map (fixPair old new)
  ⟨ents.filterMap Prod.fst, ents.filterMap Prod.snd⟩

/-- A loaded snapshot: the `players` and `fixtures` collections. -/
structure Dataset where
  players : List PlayerRec
  fixtures : List FixtureRec
deriving DecidableEq, Repr

/-- The spec's single entry point `compare(before, after)`: player diff
followed by fixture diff, as `generate_comparison_report` invokes them
(source lines 190-191). -/
def compareData (d1 d2 : Dataset) : Except PyErr (PlayerComparison × FixtureComparison) :=
  match comparePlayers d1.players d2.players with
  | .error e => .error e
  | .ok pc => .ok (pc, compareFixtures d1.fixtures d2.fixtures)

/-- Did the comparison return normally? -/
def exceptIsOk {α : Type} : Except PyErr α → Bool
  | .ok _ => true
  | .error _ => false

instance {ε α : Type} [DecidableEq ε] [DecidableEq α] : DecidableEq (Except ε α) := fun a b =>
  match a, b with
  | .error e, .error f =>
    if h : e = f then .isTrue (by rw [h]) else .isFalse (fun hc => h (Except.error.inj hc))
  | .error _, .ok _ => .isFalse (fun hc => Except.noConfusion hc)
  | .ok _, .error _ => .isFalse (fun hc => Except.noConfusion hc)
  | .ok x, .ok y =>
    if h : x = y then .isTrue (by rw [h]) else .isFalse (fun hc => h (Except.ok.inj hc))

/-- Price changes of a comparison run, empty if it raised. -/
def priceChangesOf : Except PyErr PlayerComparison → List PriceChange
  | .ok c => c.price_changes
  | .error _ => []

/-- Ownership changes of a comparison run, empty if it raised. -/
def ownershipChangesOf : Except PyErr PlayerComparison → List OwnershipChange
  | .ok c => c.ownership_changes
  | .error _ => []

/-- Form changes of a comparison run, empty if it raised. -/
def formChangesOf : Except PyErr PlayerComparison → List FormChange
  | .ok c => c.form_changes
  | .error _ => []

/-- Injury updates of a comparison run, empty if it raised. -/
def injuryUpdatesOf : Except PyErr PlayerComparison → List InjuryUpdate
  | .ok c => c.injury_updates
  | .error _ => []

/-- Fields whose absence (or, for ownership, unparseability) makes the
field-diff loop raise for a record reached by it: this is the validity
notion under which `compare(D, D)` is exception-free. -/
def validRec (p : PlayerRec) : Bool :=
  p.id.isSome && p.now_cost.isSome && p.status.isSome && (ownVal p).isSome

/-- Every record of the collection is `validRec`. -/
def validPlayers (ps : List PlayerRec) : Bool :=
  ps.all validRec

/-- A fully well-formed record: all five required fields present and the
ownership string parseable. -/
def wellFormedRec (p : PlayerRec) : Bool :=
  p.id.isSome && p.web_name.isSome && p.team.isSome && p.now_cost.isSome &&
    p.status.isSome && (ownVal p).isSome

/-- The form-check contribution for a common player whose `web_name` is
`nm`: the entry left by the try-block when no exception occurs, `none`
when either side fails to parse (the swallowed `ValueError`). -/
def formDelta (p q : PlayerRec) (nm : String) : Option FormChange :=
  match formParse p.form, formParse q.form with
  | some fo, some fn => if (1 : ℚ) < |fn - fo| then some ⟨nm, fo, fn, fn - fo⟩ else none
  | _, _ => none

/-- Fully-populated player record, used as concrete test input. -/
def wfP (i : Int) (nm : String) (tm : Int) (cost : Int) (sel : String) (st : String)
    (fm : Option String) : PlayerRec :=
  ⟨some i, some nm, some tm, some cost, some sel, some st, some "", fm⟩

/-- Player record lacking the `web_name` key. -/
def noNameRec : PlayerRec :=
  ⟨some 2, none, some 3, some 100, some "1.0", some "a", none, none⟩

/-- Concrete player present only in the older snapshot of the symmetry test. -/
def pA : PlayerRec := wfP 1 "A" 1 100 "1.0" "a" none

/-- Concrete player present in both snapshots of the symmetry test. -/
def pB : PlayerRec := wfP 2 "B" 2 200 "1.0" "a" none

/-- Concrete player present only in the newer snapshot of the symmetry test. -/
def pC : PlayerRec := wfP 3 "C" 3 300 "1.0" "a" none

/-- Expected result of comparing `[pA]` against `[pC]`: player C is new
(at price 300/10), player A removed. -/
def cAB : PlayerComparison :=
  ⟨[], [], [], [], [⟨"C", 3, ((300 : Int) : ℚ) / 10⟩], [⟨"A", 1⟩]⟩

/-- Expected result of comparing `[pC]` against `[pA]`: player A is new
(at price 100/10), player C removed. -/
def cBA : PlayerComparison :=
  ⟨[], [], [], [], [⟨"A", 1, ((100 : Int) : ℚ) / 10⟩], [⟨"C", 3⟩]⟩

/-- The all-empty player comparison. -/
def pcEmpty : PlayerComparison := ⟨[], [], [], [], [], []⟩

/-- A fixture comparison whose only content is one kickoff-time change. -/
def fcOne : FixtureComparison := ⟨[], [⟨1, 2, 3, none, some "t"⟩]⟩

/-- Concrete fixture, not yet finished. -/
def fxBefore : FixtureRec := ⟨7, 3, 10, 11, false, none, none, some "t"⟩

/-- The same fixture after finishing 2-1. -/
def fxDone : FixtureRec := ⟨7, 3, 10, 11, true, some 2, some 1, some "t"⟩

/-- The same fixture marked finished but with both scores still null. -/
def fxNull : FixtureRec := ⟨7, 3, 10, 11, true, none, none, some "t"⟩

/-- A concrete valid dataset for the identity-witness run. -/
def wD : Dataset := ⟨[wfP 1 "X" 1 500 "5.0" "a" (some "1.0")], [fxBefore]⟩

/-- Concrete comparison result exercising every rendered section:
three price changes (with a magnitude tie), two ownership changes, two
injury updates (one with news), two form changes. -/
def pc6 : PlayerComparison :=
  ⟨[⟨"P1", 10, 11, 1⟩, ⟨"P2", 10, 13, 3⟩, ⟨"P3", 13, 10, -3⟩],
   [⟨"O1", 1, 4, 3⟩, ⟨"O2", 9, 4, -5⟩],
   [⟨"I1", "a", "i", "hurt"⟩, ⟨"I2", "i", "a", ""⟩],
   [⟨"F1", 0, 2, 2⟩, ⟨"F2", 5, 1, -4⟩],
   [], []⟩

/-- The empty fixture comparison. -/
def fc6 : FixtureComparison := ⟨[], []⟩

/-- Stable insertion of `x` in front of the first element whose key is
strictly below `key x`: among equal keys, earlier input elements stay
first, exactly the tie behaviour of Python's stable `sorted(...,
reverse=True)`. -/
def insDesc {α : Type} (key : α → ℚ) (x : α) : List α → List α
  | [] => [x]
  | y :: ys => if key x < key y then y :: insDesc key x ys else x :: y :: ys

/-- Stable sort by `key`, descending: the model of
`sorted(entries, key=lambda e: abs(e[...]), reverse=True)`. -/
def sortDesc {α : Type} (key : α → ℚ) : List α → List α
  | [] => []
  | x :: xs => insDesc key x (sortDesc key xs)

/-- Sort key used for the price section: magnitude of the delta. -/
def priceKey (e : PriceChange) : ℚ := |e.change|

/-- Sort key used for the ownership section. -/
def ownKey (e : OwnershipChange) : ℚ := |e.change|

/-- Sort key used for the form section. -/
def formKey (e : FormChange) : ℚ := |e.change|

/-- Round a rational to an integer, ties to even — the rounding of
Python's `format(x, '.1f')` on exactly-representable inputs. -/
def halfEven (x : ℚ) : ℤ :=
  let f := ⌊x⌋
  let r := x - (f : ℚ)
  if r < 1 / 2 then f
  else if 1 / 2 < r then f + 1
  else if f % 2 = 0 then f else f + 1

/-- Python `f"{q:.1f}"`: one decimal place. -/
def fmt1 (q : ℚ) : String :=
  let m := halfEven (q * 10)
  let n := m.natAbs
  (if m < 0 then "-" else "") ++ toString (n / 10) ++ "." ++ toString (n % 10)

/-- The explicit `+` shown before positive deltas
(`sign = "+" if change > 0 else ""`). -/
def signStr (q : ℚ) : String := if 0 < q then "+" else ""

/-- One rendered price-change line (source line 208). -/
def priceLine (c : PriceChange) : String :=
  "  " ++ c.name ++ ": GBP" ++ fmt1 c.old_price ++ "m -> GBP" ++ fmt1 c.new_price ++
    "m (" ++ signStr c.change ++ fmt1 c.change ++ ")"

/-- One rendered ownership-change line (source line 218). -/
def ownLine (c : OwnershipChange) : String :=
  "  " ++ c.name ++ ": " ++ fmt1 c.old_ownership ++ "% -> " ++ fmt1 c.new_ownership ++
    "% (" ++ signStr c.change ++ fmt1 c.change ++ "%)"

/-- The line(s) of one injury update (source lines 226-228): the status
line, plus a news line when the news text is nonempty. -/
def injLines (u : InjuryUpdate) : List String :=
  ("  " ++ u.name ++ ": " ++ u.old_status ++ " -> " ++ u.new_status) ::
    (if u.news ≠ "" then ["    News: " ++ u.news] else [])

/-- One rendered form-change line (source line 238). -/
def formLine (c : FormChange) : String :=
  "  " ++ c.name ++ ": " ++ fmt1 c.old_form ++ " -> " ++ fmt1 c.new_form ++
    " (" ++ signStr c.change ++ fmt1 c.change ++ ")"

/-- One rendered new-player line (source line 246). -/
def newPlayerLine (p : NewPlayer) : String :=
  "  " ++ p.name ++ " - Team " ++ toString p.team ++ " - GBP" ++ fmt1 p.price ++ "m"

/-- One rendered removed-player line (source line 254). -/
def removedLine (p : RemovedPlayer) : String :=
  "  " ++ p.name ++ " - Team " ++ toString p.team

/-- One rendered match-result line (source line 262). -/
def resultLine (r : NewResult) : String :=
  "  GW" ++ toString r.gameweek ++ ": Team " ++ toString r.home_team ++
    " vs Team " ++ toString r.away_team ++ " - Score: " ++ r.score

/-- The 60-character `=` banner. -/
def eqLine : String := String.mk (List.replicate 60 '=')

/-- The 40-character `-` separator. -/
def dashLine : String := String.mk (List.replicate 40 '-')

/-- Price section (source lines 202-209): present only when nonempty,
stably sorted by delta magnitude descending, capped at 20 lines. -/
def priceSection (pc : PlayerComparison) : List String :=
  if pc.price_changes.isEmpty then []
  else "PRICE CHANGES:" :: dashLine ::
    (((sortDesc priceKey pc.price_changes).take 20).map priceLine ++ [""])

/-- Ownership section (source lines 212-219): sorted, capped at 15. -/
def ownSection (pc : PlayerComparison) : List String :=
  if pc.ownership_changes.isEmpty then []
  else "SIGNIFICANT OWNERSHIP CHANGES (>2%):" :: dashLine ::
    (((sortDesc ownKey pc.ownership_changes).take 15).map ownLine ++ [""])

/-- Injury section (source lines 222-229): *not* sorted — the updates
are shown in upstream accumulation order, capped at 20 entries. -/
def injSection (pc : PlayerComparison) : List String :=
  if pc.injury_updates.isEmpty then []
  else "INJURY STATUS UPDATES:" :: dashLine ::
    ((pc.injury_updates.take 20).flatMap injLines ++ [""])

/-- Form section (source lines 232-239): sorted, capped at 15. -/
def formSection (pc : PlayerComparison) : List String :=
  if pc.form_changes.isEmpty then []
  else "SIGNIFICANT FORM CHANGES:" :: dashLine ::
    (((sortDesc formKey pc.form_changes).take 15).map formLine ++ [""])

/-- New-players section (source lines 242-247): neither sorted nor capped. -/
def newSection (pc : PlayerComparison) : List String :=
  if pc.new_players.isEmpty then []
  else "NEW PLAYERS:" :: dashLine :: (pc.new_players.map newPlayerLine ++ [""])

/-- Removed-players section (source lines 250-255). -/
def removedSection (pc : PlayerComparison) : List String :=
  if pc.removed_players.isEmpty then []
  else "REMOVED PLAYERS:" :: dashLine :: (pc.removed_players.map removedLine ++ [""])

/-- New-results section (source lines 258-263): neither sorted nor capped. -/
def resultsSection (fc : FixtureComparison) : List String :=
  if fc.new_results.isEmpty then []
  else "NEW MATCH RESULTS:" :: dashLine :: (fc.new_results.map resultLine ++ [""])

/-- Summary section (source lines 266-274): unconditional, one count
line per rendered category — note the source emits *no* count for
`fixture_changes` (and no section for it either). -/
def summarySection (pc : PlayerComparison) (fc : FixtureComparison) : List String :=
  ["SUMMARY:", dashLine,
   "  Price changes: " ++ toString pc.price_changes.length,
   "  Ownership changes: " ++ toString pc.ownership_changes.length,
   "  Injury updates: " ++ toString pc.injury_updates.length,
   "  Form changes: " ++ toString pc.form_changes.length,
   "  New players: " ++ toString pc.new_players.length,
   "  Removed players: " ++ toString pc.removed_players.length,
   "  New results: " ++ toString fc.new_results.length]

/-- The report of `generate_comparison_report` (source lines 194-276)
as its list of lines: header, the eight conditional sections in source
order, then the unconditional summary. -/
def generateReport (date1 date2 : String) (pc : PlayerComparison) (fc : FixtureComparison) :
    List String :=
  [eqLine, "FPL DATA COMPARISON REPORT", "Comparing: " ++ date1 ++ " -> " ++ date2, eqLine, ""]
    ++ priceSection pc ++ ownSection pc ++ injSection pc ++ formSection pc
    ++ newSection pc ++ removedSection pc ++ resultsSection fc ++ summarySection pc fc

theorem mem_insDesc {α : Type} (key : α → ℚ) (x : α) (l : List α) (z : α) :
    z ∈ insDesc key x l ↔ z = x ∨ z ∈ l := by
  induction l with
  | nil => simp [insDesc]
  | cons y ys ih =>
    simp only [insDesc]
    by_cases h : key x < key y
    · rw [if_pos h]
      simp only [List.mem_cons, ih]
      tauto
    · rw [if_neg h]
      simp only [List.mem_cons]

theorem insDesc_perm {α : Type} (key : α → ℚ) (x : α) (l : List α) :
    List.Perm (insDesc key x l) (x :: l) := by
  induction l with
  | nil => simp [insDesc]
  | cons y ys ih =>
    simp only [insDesc]
    by_cases h : key x < key y
    · rw [if_pos h]
      exact (ih.cons y).trans (List.Perm.swap x y ys)
    · rw [if_neg h]

theorem sortDesc_perm {α : Type} (key : α → ℚ) (l : List α) :
    List.Perm (sortDesc key l) l := by
  induction l with
  | nil => simp [sortDesc]
  | cons x xs ih =>
    exact (insDesc_perm key x (sortDesc key xs)).trans (ih.cons x)

theorem insDesc_pairwise {α : Type} (key : α → ℚ) (x : α) (l : List α)
    (h : List.Pairwise (fun a b => key b ≤ key a) l) :
    List.Pairwise (fun a b => key b ≤ key a) (insDesc key x l) := by
  induction l with
  | nil => simp [insDesc]
  | cons y ys ih =>
    rcases List.pairwise_cons.mp h with ⟨hy, hys⟩
    simp only [insDesc]
    by_cases hxy : key x < key y
    · rw [if_pos hxy]
      refine List.pairwise_cons.mpr ⟨?_, ih hys⟩
      intro z hz
      rcases (mem_insDesc key x ys z).mp hz with rfl | hz'
      · exact le_of_lt hxy
      · exact hy z hz'
    · rw [if_neg hxy]
      refine List.pairwise_cons.mpr ⟨?_, h⟩
      intro z hz
      rcases List.mem_cons.mp hz with rfl | hz'
      · exact le_of_not_lt hxy
      · exact le_trans (hy z hz') (le_of_not_lt hxy)

theorem sortDesc_pairwise {α : Type} (key : α → ℚ) (l : List α) :
    List.Pairwise (fun a b => key b ≤ key a) (sortDesc key l) := by
  induction l with
  | nil => simp [sortDesc]
  | cons x xs ih => exact insDesc_pairwise key x (sortDesc key xs) ih

theorem insDesc_filter_of_ne {α : Type} (key : α → ℚ) (x : α) (l : List α) (q : ℚ)
    (hx : key x ≠ q) :
    (insDesc key x l).filter (fun a => decide (key a = q)) =
      l.filter (fun a => decide (key a = q)) := by
  induction l with
  | nil => simp [insDesc, hx]
  | cons y ys ih =>
    simp only [insDesc]
    by_cases h : key x < key y
    · rw [if_pos h, List.filter_cons, List.filter_cons, ih]
    · rw [if_neg h, List.filter_cons]
      simp [hx]

theorem insDesc_filter_of_eq {α : Type} (key : α → ℚ) (x : α) (l : List α) (q : ℚ)
    (hx : key x = q) :
    (insDesc key x l).filter (fun a => decide (key a = q)) =
      x :: l.filter (fun a => decide (key a = q)) := by
  induction l with
  | nil => simp [insDesc, hx]
  | cons y ys ih =>
    simp only [insDesc]
    by_cases h : key x < key y
    · rw [if_pos h]
      have hy : key y ≠ q := hx ▸ ne_of_gt h
      rw [List.filter_cons, List.filter_cons]
      simp [hy, ih]
    · rw [if_neg h, List.filter_cons]
      simp [hx]

theorem sortDesc_filter {α : Type} (key : α → ℚ) (l : List α) (q : ℚ) :
    (sortDesc key l).filter (fun a => decide (key a = q)) =
      l.filter (fun a => decide (key a = q)) := by
  induction l with
  | nil => rfl
  | cons x xs ih =>
    simp only [sortDesc]
    by_cases hx : key x = q
    · rw [insDesc_filter_of_eq key x _ q hx, ih, List.filter_cons]
      simp [hx]
    · rw [insDesc_filter_of_ne key x _ q hx, ih, List.filter_cons]
      simp [hx]

theorem mapME_ok {α β : Type} (f : α → Except PyErr β) (g : α → β) (l : List α)
    (h : ∀ x ∈ l, f x = .ok (g x)) : mapME f l = .ok (l.map g) := by
  induction l with
  | nil => rfl
  | cons x xs ih =>
    have hx := h x (List.mem_cons_self x xs)
    have ih' := ih (fun y hy => h y (List.mem_cons_of_mem x hy))
    simp only [mapME, hx, ih', List.map_cons]

/-- The record ids read while building the id-indexed dict, when every
record carries one. -/
def idsEval (ps : List PlayerRec) : List Int :=
  ps.filterMap (fun p => p.id)

theorem idsOf_ok (ps : List PlayerRec) (h : ∀ p ∈ ps, p.id.isSome = true) :
    idsOf ps = .ok (idsEval ps) := by
  induction ps with
  | nil => rfl
  | cons p rest ih =>
    rcases Option.isSome_iff_exists.mp (h p (List.mem_cons_self p rest)) with ⟨i, hi⟩
    have ih' := ih (fun q hq => h q (List.mem_cons_of_mem p hq))
    simp only [idsOf, hi, ih', idsEval, List.filterMap_cons]

theorem idsOf_error (ps : List PlayerRec) (h : ∃ p ∈ ps, p.id = none) :
    idsOf ps = .error (.keyError "id") := by
  induction ps with
  | nil => rcases h with ⟨p, hp, _⟩; cases hp
  | cons p rest ih =>
    rcases h with ⟨r, hr, hid⟩
    rcases List.mem_cons.mp hr with rfl | hrest
    · simp [idsOf, hid]
    · cases hp : p.id with
      | none => simp [idsOf, hp]
      | some i => simp [idsOf, hp, ih ⟨r, hrest, hid⟩]

theorem mem_dedupKeys (l : List Int) (i : Int) : i ∈ dedupKeys l ↔ i ∈ l := by
  induction l with
  | nil => simp [dedupKeys]
  | cons x xs ih =>
    simp only [dedupKeys, List.mem_cons, List.mem_filter, decide_eq_true_eq]
    constructor
    · rintro (rfl | ⟨h1, _⟩)
      · exact Or.inl rfl
      · exact Or.inr (ih.mp h1)
    · rintro (rfl | h)
      · exact Or.inl rfl
      · by_cases hx : i = x
        · exact Or.inl hx
        · exact Or.inr ⟨ih.mpr h, by simpa using hx⟩

theorem lookupLast_mem (ps : List PlayerRec) (i : Int) (p : PlayerRec)
    (h : lookupLast ps i = some p) : p ∈ ps := by
  induction ps with
  | nil => cases h
  | cons q rest ih =>
    simp only [lookupLast] at h
    cases hr : lookupLast rest i with
    | some p' =>
      rw [hr] at h
      cases h
      exact List.mem_cons_of_mem q (ih hr)
    | none =>
      rw [hr] at h
      by_cases hq : q.id = some i
      · rw [if_pos hq] at h
        cases h
        exact List.mem_cons_self _ _
      · rw [if_neg hq] at h
        cases h

theorem lookupLast_isSome (ps : List PlayerRec) (i : Int) (h : i ∈ idsEval ps) :
    ∃ p, lookupLast ps i = some p ∧ p ∈ ps := by
  induction ps with
  | nil => simp [idsEval] at h
  | cons q rest ih =>
    cases hr : lookupLast rest i with
    | some p =>
      exact ⟨p, by simp [lookupLast, hr], List.mem_cons_of_mem q (lookupLast_mem rest i p hr)⟩
    | none =>
      have hnotrest : i ∉ idsEval rest := by
        intro hmem
        rcases ih hmem with ⟨p, hp, _⟩
        rw [hp] at hr
        cases hr
      cases hq : q.id with
      | none =>
        simp only [idsEval, List.filterMap_cons, hq] at h
        exact absurd h hnotrest
      | some j =>
        simp only [idsEval, List.filterMap_cons, hq, List.mem_cons] at h
        rcases h with rfl | h
        · exact ⟨q, by simp [lookupLast, hr, hq], List.mem_cons_self q rest⟩
        · exact absurd h hnotrest

theorem comparePair_self (p : PlayerRec) (h : validRec p = true) :
    comparePair p p = .ok ⟨none, none, none, none⟩ := by
  simp only [validRec, Bool.and_eq_true] at h
  obtain ⟨⟨⟨_, hcost⟩, hstat⟩, hown⟩ := h
  rcases Option.isSome_iff_exists.mp hcost with ⟨c, hc⟩
  rcases Option.isSome_iff_exists.mp hstat with ⟨st, hst⟩
  rcases Option.isSome_iff_exists.mp hown with ⟨ov, hov⟩
  have h1 : priceCheck p p = .ok none := by simp [priceCheck, hc]
  have h2 : ownershipCheck p p = .ok none := by
    cases hsel : p.selected_by_percent with
    | none => rw [ownVal, hsel] at hov; cases hov
    | some s =>
      have hps : parseFloat s = some ov := by
        rw [ownVal, hsel] at hov
        exact hov
      have hno : ¬ ((2 : ℚ) < |ov - ov|) := by
        rw [sub_self, abs_zero]
        norm_num
      simp [ownershipCheck, hsel, hps, hno]
  have h3 : statusCheck p p = .ok none := by simp [statusCheck, hst]
  have h4 : formCheck p p = .ok none := by
    cases hf : formParse p.form with
    | none => simp [formCheck, hf]
    | some v =>
      have hno : ¬ ((1 : ℚ) < |v - v|) := by
        rw [sub_self, abs_zero]
        norm_num
      simp [formCheck, hf, hno]
  simp [comparePair, h1, h2, h3, h4]

theorem compareFixtures_self (fs : List FixtureRec) : compareFixtures fs fs = ⟨[], []⟩ := by
  have hfix : ∀ i, fixPair fs fs i = (none, none) := by
    intro i
    cases hl : lookupLastF fs i with
    | none => simp [fixPair, hl]
    | some f =>
      have h1 : resCheck f f = none := by
        cases hfin : f.finished <;> simp [resCheck, hfin]
      have h2 : timeCheck f f = none := by simp [timeCheck]
      simp [fixPair, hl, h1, h2]
  simp only [compareFixtures]
  congr 1
  · rw [List.filterMap_eq_nil_iff]
    intro a ha
    rcases List.mem_map.mp ha with ⟨i, _, rfl⟩
    rw [hfix i]
  · rw [List.filterMap_eq_nil_iff]
    intro a ha
    rcases List.mem_map.mp ha with ⟨i, _, rfl⟩
    rw [hfix i]

theorem filterMap_map_const_none {γ δ : Type} (L : List γ) (d : Deltas)
    (g : Deltas → Option δ) (hg : g d = none) :
    (L.map (fun _ => d)).filterMap g = [] := by
  induction L with
  | nil => rfl
  | cons x xs ih => simp [List.filterMap_cons, hg, ih]

theorem comparePlayers_singleton (p q : PlayerRec) (i : Int)
    (hp : p.id = some i) (hq : q.id = some i) :
    comparePlayers [p] [q] =
      match comparePair p q with
      | .error e => .error e
      | .ok d => .ok ⟨d.price.toList, d.own.toList, d.inj.toList, d.frm.toList, [], []⟩ := by
  have hio : idsOf [p] = .ok [i] := by simp [idsOf, hp]
  have hin : idsOf [q] = .ok [i] := by simp [idsOf, hq]
  have hlo : lookupLast [p] i = some p := by simp [lookupLast, hp]
  have hlq : lookupLast [q] i = some q := by simp [lookupLast, hq]
  have hdk : dedupKeys [i] = [i] := by simp [dedupKeys]
  have hf1 : ([i].filter (fun j => decide (j ∉ [i]))) = [] := by simp
  have hf2 : ([i].filter (fun j => decide (j ∈ [i]))) = [i] := by simp
  simp only [comparePlayers, hio, hin, hdk, hf1, hf2, mapME, pairAt, hlo, hlq]
  cases hc : comparePair p q with
  | error e => rfl
  | ok d =>
    cases dp : d.price <;> cases dw : d.own <;> cases di : d.inj <;> cases df : d.frm <;>
      simp [List.filterMap_cons, dp, dw, di, df, Option.toList]

theorem comparePair_components (p q : PlayerRec) (oc nc : Int) (os ns : String)
    (ov nv : ℚ) (st1 st2 nm : String)
    (hoc : p.now_cost = some oc) (hnc : q.now_cost = some nc)
    (hos : p.selected_by_percent = some os) (hns : q.selected_by_percent = some ns)
    (hpo : parseFloat os = some ov) (hpn : parseFloat ns = some nv)
    (hst1 : p.status = some st1) (hst2 : q.status = some st2)
    (hw : q.web_name = some nm) :
    comparePair p q = .ok
      ⟨if oc = nc then none
        else some ⟨nm, (oc : ℚ) / 10, (nc : ℚ) / 10, ((nc : ℚ) - (oc : ℚ)) / 10⟩,
       if (2 : ℚ) < |nv - ov| then some ⟨nm, ov, nv, nv - ov⟩ else none,
       if st1 = st2 then none else some ⟨nm, st1, st2, q.news.getD ""⟩,
       formDelta p q nm⟩ := by
  have h1 : priceCheck p q = .ok (if oc = nc then none
      else some ⟨nm, (oc : ℚ) / 10, (nc : ℚ) / 10, ((nc : ℚ) - (oc : ℚ)) / 10⟩) := by
    by_cases h : oc = nc <;> simp [priceCheck, hoc, hnc, hw, h]
  have h2 : ownershipCheck p q = .ok
      (if (2 : ℚ) < |nv - ov| then some ⟨nm, ov, nv, nv - ov⟩ else none) := by
    by_cases h : (2 : ℚ) < |nv - ov| <;>
      simp [ownershipCheck, hos, hns, hpo, hpn, hw, h]
  have h3 : statusCheck p q = .ok
      (if st1 = st2 then none else some ⟨nm, st1, st2, q.news.getD ""⟩) := by
    by_cases h : st1 = st2 <;> simp [statusCheck, hst1, hst2, hw, h]
  have h4 : formCheck p q = .ok (formDelta p q nm) := by
    cases hfo : formParse p.form with
    | none => simp [formCheck, formDelta, hfo]
    | some fo =>
      cases hfn : formParse q.form with
      | none => simp [formCheck, formDelta, hfo, hfn]
      | some fn =>
        by_cases h : (1 : ℚ) < |fn - fo| <;> simp [formCheck, formDelta, hfo, hfn, hw, h]
  simp [comparePair, h1, h2, h3, h4]

theorem mk_entries_agree (op : Option PlayerRec) (y : NewPlayer) (r : RemovedPlayer)
    (hy : mkNewEntry op = .ok y) (hr : mkRemovedEntry op = .ok r) :
    y.name = r.name ∧ y.team = r.team := by
  cases op with
  | none => cases hy
  | some p =>
    cases hw : p.web_name with
    | none => simp [mkNewEntry, hw] at hy
    | some nm =>
      cases ht : p.team with
      | none => simp [mkNewEntry, hw, ht] at hy
      | some tm =>
        cases hc : p.now_cost with
        | none => simp [mkNewEntry, hw, ht, hc] at hy
        | some c =>
          simp only [mkNewEntry, hw, ht, hc] at hy
          simp only [mkRemovedEntry, hw, ht] at hr
          injection hy with hy'
          injection hr with hr'
          rw [← hy', ← hr']
          exact ⟨rfl, rfl⟩

theorem mapME_entries_agree (ps : List PlayerRec) (l : List Int)
    (xs : List NewPlayer) (ys : List RemovedPlayer)
    (hx : mapME (fun i => mkNewEntry (lookupLast ps i)) l = .ok xs)
    (hy : mapME (fun i => mkRemovedEntry (lookupLast ps i)) l = .ok ys) :
    xs.map (fun e => (e.name, e.team)) = ys.map (fun e => (e.name, e.team)) := by
  induction l generalizing xs ys with
  | nil =>
    simp only [mapME] at hx hy
    injection hx with hx'
    injection hy with hy'
    rw [← hx', ← hy']
    rfl
  | cons i rest ih =>
    simp only [mapME] at hx hy
    cases hne : mkNewEntry (lookupLast ps i) with
    | error e => rw [hne] at hx; cases hx
    | ok y =>
      rw [hne] at hx
      cases hrx : mapME (fun i => mkNewEntry (lookupLast ps i)) rest with
      | error e => rw [hrx] at hx; cases hx
      | ok xs' =>
        rw [hrx] at hx
        cases hre : mkRemovedEntry (lookupLast ps i) with
        | error e => rw [hre] at hy; cases hy
        | ok r =>
          rw [hre] at hy
          cases hry : mapME (fun i => mkRemovedEntry (lookupLast ps i)) rest with
          | error e => rw [hry] at hy; cases hy
          | ok ys' =>
            rw [hry] at hy
            injection hx with hx'
            injection hy with hy'
            rw [← hx', ← hy']
            obtain ⟨hn, ht⟩ := mk_entries_agree _ y r hne hre
            simp only [List.map_cons, hn, ht, ih xs' ys' hrx hry]

theorem idsOf_error_eq (ps : List PlayerRec) :
    ∀ e : PyErr, idsOf ps = .error e → e = .keyError "id" := by
  induction ps with
  | nil => intro e h; cases h
  | cons p rest ih =>
    intro e h
    simp only [idsOf] at h
    cases hp : p.id with
    | none =>
      rw [hp] at h
      injection h with h'
      exact h'.symm
    | some i =>
      rw [hp] at h
      cases hr : idsOf rest with
      | error e' =>
        rw [hr] at h
        injection h with h'
        rw [← h']
        exact ih e' hr
      | ok l => rw [hr] at h; cases h

theorem compareFixtures_singleton (f g : FixtureRec) (hid : g.id = f.id) :
    compareFixtures [f] [g] = ⟨(resCheck f g).toList, (timeCheck f g).toList⟩ := by
  have hdk : dedupKeys [f.id] = [f.id] := by simp [dedupKeys]
  have hfl : ([f.id].filter (fun i => decide (i ∈ [g.id]))) = [f.id] := by simp [hid]
  have hlf : lookupLastF [f] f.id = some f := by simp [lookupLastF]
  have hlg : lookupLastF [g] f.id = some g := by simp [lookupLastF, hid]
  simp only [compareFixtures, List.map_cons, List.map_nil, hdk, hfl, fixPair, hlf, hlg]
  cases hr : resCheck f g <;> cases ht : timeCheck f g <;>
    simp [List.filterMap_cons, Option.toList]

/-- C9: for a fixture id present in both snapshots, a `finished`
transition from false to true with after-scores 2 and 1 yields exactly
one new-result entry carrying the gameweek, home/away team ids and the
score string "2-1"; and two snapshots with disjoint fixture-id sets
yield an entirely empty fixture comparison — fixtures present in only
one snapshot are never reported. -/
theorem c9_fixture_transition :
    (∀ f g : FixtureRec, g.id = f.id → f.finished = false → g.finished = true →
      g.team_h_score = some 2 → g.team_a_score = some 1 →
      (compareFixtures [f] [g]).new_results = [⟨g.event, g.team_h, g.team_a, "2-1"⟩]) ∧
    (∀ old new : List FixtureRec,
      (∀ i, i ∈ old.map FixtureRec.id → i ∉ new.map FixtureRec.id) →
      compareFixtures old new = ⟨[], []⟩) := by
  constructor
  · intro f g hid hf hg hh ha
    rw [compareFixtures_singleton f g hid]
    have hres : resCheck f g = some ⟨g.event, g.team_h, g.team_a, "2-1"⟩ := by
      have hs : pyOptInt g.team_h_score ++ "-" ++ pyOptInt g.team_a_score = "2-1" := by
        rw [hh, ha]
        decide
      simp [resCheck, hf, hg, hs]
    rw [hres]
    rfl
  · intro old new hdisj
    simp only [compareFixtures]
    have hfl : ((dedupKeys (old.map FixtureRec.id)).filter
        (fun i => decide (i ∈ new.map FixtureRec.id))) = [] := by
      rw [List.filter_eq_nil_iff]
      intro a ha
      have hmem := (mem_dedupKeys _ a).mp ha
      simp only [decide_eq_true_eq]
      exact hdisj a hmem
    rw [hfl]
    rfl

/-- C9 witness: the transition fires on a concrete fixture pair and a
fixture present only in the older snapshot is not reported. -/
theorem c9_fixture_transition_witness :
    (compareFixtures [fxBefore] [fxDone]).new_results = [⟨3, 10, 11, "2-1"⟩] ∧
    compareFixtures [fxBefore] [] = ⟨[], []⟩ := by
  constructor
  · exact c9_fixture_transition.1 fxBefore fxDone rfl rfl rfl rfl rfl
  · exact c9_fixture_transition.2 [fxBefore] []
      (by intro i h1 h2; simp at h2)

/-- C10: when the after record is finished but both scores are null,
the fixture comparison still succeeds and emits a new-result entry
whose score string is "None-None" (Python interpolates `None`). -/
theorem c10_null_scores (f g : FixtureRec) (hid : g.id = f.id) (hf : f.finished = false)
    (hg : g.finished = true) (hh : g.team_h_score = none) (ha : g.team_a_score = none) :
    (compareFixtures [f] [g]).new_results = [⟨g.event, g.team_h, g.team_a, "None-None"⟩] := by
  rw [compareFixtures_singleton f g hid]
  have hres : resCheck f g = some ⟨g.event, g.team_h, g.team_a, "None-None"⟩ := by
    have hs : pyOptInt g.team_h_score ++ "-" ++ pyOptInt g.team_a_score = "None-None" := by
      rw [hh, ha]
      decide
    simp [resCheck, hf, hg, hs]
  rw [hres]
  rfl

/-- C10 witness: the null-score transition on a concrete fixture pair. -/
theorem c10_null_scores_witness :
    (compareFixtures [fxBefore] [fxNull]).new_results = [⟨3, 10, 11, "None-None"⟩] :=
  c10_null_scores fxBefore fxNull rfl rfl rfl rfl rfl

/-- C8 counterexample: with raw costs 500 and 550 the reported delta is
5.0, not the 0.5 the claim states. -/
theorem c8_counterexample :
    (priceChangesOf (comparePlayers [wfP 1 "X" 1 500 "5.0" "a" none]
        [wfP 1 "X" 1 550 "5.0" "a" none])).map PriceChange.change = [(5 : ℚ)] ∧
    (priceChangesOf (comparePlayers [wfP 1 "X" 1 500 "5.0" "a" none]
        [wfP 1 "X" 1 550 "5.0" "a" none])).map PriceChange.change ≠ [(1 : ℚ) / 2] := by
  constructor
  · with_unfolding_all decide
  · with_unfolding_all decide

/-- C8 (amended): raw costs 500 and 550 yield old/new prices 50.0 and
55.0 (raw divided by 10) and delta +5.0, rendered with an explicit
leading `+`; the reverse decrease yields -5.0 rendered with the natural
`-` and no `+` anywhere in the line. -/
theorem c8_price_delta :
    priceChangesOf (comparePlayers [wfP 1 "X" 1 500 "5.0" "a" none]
        [wfP 1 "X" 1 550 "5.0" "a" none]) = [⟨"X", 50, 55, 5⟩] ∧
    priceLine ⟨"X", 50, 55, 5⟩ = "  X: GBP50.0m -> GBP55.0m (+5.0)" ∧
    priceChangesOf (comparePlayers [wfP 1 "X" 1 550 "5.0" "a" none]
        [wfP 1 "X" 1 500 "5.0" "a" none]) = [⟨"X", 55, 50, -5⟩] ∧
    priceLine ⟨"X", 55, 50, -5⟩ = "  X: GBP55.0m -> GBP50.0m (-5.0)" ∧
    ((priceLine ⟨"X", 55, 50, -5⟩).toList.contains '+') = false := by
  refine ⟨by with_unfolding_all decide, by with_unfolding_all decide,
    by with_unfolding_all decide, by with_unfolding_all decide, by with_unfolding_all decide⟩

theorem ownVal_fields (p : PlayerRec) (ov : ℚ) (h : ownVal p = some ov) :
    ∃ os, p.selected_by_percent = some os ∧ parseFloat os = some ov := by
  cases hs : p.selected_by_percent with
  | none =>
    simp only [ownVal, hs] at h
    exact Option.noConfusion h
  | some s =>
    simp only [ownVal, hs] at h
    exact ⟨s, rfl, h⟩

/-- C2 (amended): a player record missing a required field is not
skipped — the comparison raises and the error escapes `compare()`.  In
particular, whenever any record of either snapshot lacks the `id`
field, the whole comparison fails with `KeyError 'id'`. -/
theorem c2_missing_field_raises (old new : List PlayerRec)
    (h : ∃ p ∈ old ++ new, p.id = none) :
    comparePlayers old new = .error (.keyError "id") := by
  rcases h with ⟨p, hp, hid⟩
  rcases List.mem_append.mp hp with hpo | hpn
  · have ho := idsOf_error old ⟨p, hpo, hid⟩
    simp [comparePlayers, ho]
  · cases ha : idsOf old with
    | error e =>
      have he := idsOf_error_eq old e ha
      simp [comparePlayers, ha, he]
    | ok l =>
      have hn := idsOf_error new ⟨p, hpn, hid⟩
      simp [comparePlayers, ha, hn]

/-- C2 witness: a concrete record with no id makes the comparison raise. -/
theorem c2_missing_field_raises_witness :
    comparePlayers [⟨none, some "Y", some 1, some 100, some "1.0", some "a", none, none⟩] [] =
      .error (.keyError "id") :=
  c2_missing_field_raises _ _
    ⟨⟨none, some "Y", some 1, some 100, some "1.0", some "a", none, none⟩, by simp, rfl⟩

/-- C2 counterexample: a new-player record that merely lacks `web_name`
is not skipped — the whole comparison aborts with a `KeyError` instead
of returning a result in which the other records were compared. -/
theorem c2_counterexample :
    comparePlayers [pA] [pA, noNameRec] = .error (.keyError "web_name") := by
  with_unfolding_all decide

/-- C3 (amended): for a common player whose five required fields are
present and whose ownership strings parse, the comparison returns
normally whatever the `form` fields hold, and a `form` parse failure on
either side merely skips the form check for that player (the
`try/except` of source lines 115-126); a `selected_by_percent` parse
failure, by contrast, is not caught (see the counterexample). -/
theorem c3_form_parse_contained (p q : PlayerRec) (i : Int)
    (hp : wellFormedRec p = true) (hq : wellFormedRec q = true)
    (hpi : p.id = some i) (hqi : q.id = some i) :
    exceptIsOk (comparePlayers [p] [q]) = true ∧
    (formParse p.form = none ∨ formParse q.form = none →
      formChangesOf (comparePlayers [p] [q]) = []) := by
  simp only [wellFormedRec, Bool.and_eq_true] at hp hq
  obtain ⟨⟨⟨⟨⟨_, _⟩, _⟩, hpc⟩, hps⟩, hpo⟩ := hp
  obtain ⟨⟨⟨⟨⟨_, hqw⟩, _⟩, hqc⟩, hqs⟩, hqo⟩ := hq
  rcases Option.isSome_iff_exists.mp hpc with ⟨oc, hoc⟩
  rcases Option.isSome_iff_exists.mp hqc with ⟨nc, hnc⟩
  rcases Option.isSome_iff_exists.mp hps with ⟨st1, hst1⟩
  rcases Option.isSome_iff_exists.mp hqs with ⟨st2, hst2⟩
  rcases Option.isSome_iff_exists.mp hqw with ⟨nm, hw⟩
  rcases Option.isSome_iff_exists.mp hpo with ⟨ov, hov⟩
  rcases Option.isSome_iff_exists.mp hqo with ⟨nv, hnv⟩
  rcases ownVal_fields p ov hov with ⟨os, hos, hpfo⟩
  rcases ownVal_fields q nv hnv with ⟨ns, hns, hpfn⟩
  have hcc := comparePair_components p q oc nc os ns ov nv st1 st2 nm
    hoc hnc hos hns hpfo hpfn hst1 hst2 hw
  rw [comparePlayers_singleton p q i hpi hqi, hcc]
  constructor
  · rfl
  · intro hform
    rcases hform with h | h
    · simp [formChangesOf, formDelta, h]
    · cases hfo : formParse p.form with
      | none => simp [formChangesOf, formDelta, hfo]
      | some fo => simp [formChangesOf, formDelta, hfo, h]

/-- C3 witness: an unparseable `form` on the before side leaves the
comparison successful with no form change emitted. -/
theorem c3_form_parse_contained_witness :
    exceptIsOk (comparePlayers [wfP 1 "X" 1 500 "5.0" "a" (some "bad")]
      [wfP 1 "X" 1 500 "5.0" "a" (some "9.9")]) = true ∧
    formChangesOf (comparePlayers [wfP 1 "X" 1 500 "5.0" "a" (some "bad")]
      [wfP 1 "X" 1 500 "5.0" "a" (some "9.9")]) = [] := by
  have h := c3_form_parse_contained (wfP 1 "X" 1 500 "5.0" "a" (some "bad"))
    (wfP 1 "X" 1 500 "5.0" "a" (some "9.9")) 1 (by decide) (by decide) rfl rfl
  exact ⟨h.1, h.2 (Or.inl (by decide))⟩

/-- C3 counterexample: an unparseable `selected_by_percent` on a common
player is *not* caught locally — the `ValueError` escapes the
comparison, while the claim says the failure never escalates. -/
theorem c3_counterexample :
    comparePlayers [wfP 1 "X" 1 500 "abc" "a" none] [wfP 1 "X" 1 500 "abc" "a" none] =
      .error .valueError := by
  with_unfolding_all decide

/-- C5: for a common well-formed player, an ownership change is
reported exactly when the absolute difference strictly exceeds 2.0
(2.0 itself is suppressed) and a form change exactly when the absolute
difference strictly exceeds 1.0. -/
theorem c5_threshold_boundaries (p q : PlayerRec) (i : Int) (nm : String) (ov nv : ℚ)
    (hp : wellFormedRec p = true) (hq : wellFormedRec q = true)
    (hpi : p.id = some i) (hqi : q.id = some i) (hw : q.web_name = some nm)
    (ho : ownVal p = some ov) (hn : ownVal q = some nv) :
    ownershipChangesOf (comparePlayers [p] [q]) =
      (if (2 : ℚ) < |nv - ov| then [⟨nm, ov, nv, nv - ov⟩] else []) ∧
    (∀ fo fn : ℚ, formParse p.form = some fo → formParse q.form = some fn →
      formChangesOf (comparePlayers [p] [q]) =
        (if (1 : ℚ) < |fn - fo| then [⟨nm, fo, fn, fn - fo⟩] else [])) := by
  simp only [wellFormedRec, Bool.and_eq_true] at hp hq
  obtain ⟨⟨⟨⟨⟨_, _⟩, _⟩, hpc⟩, hps⟩, _⟩ := hp
  obtain ⟨⟨⟨⟨⟨_, _⟩, _⟩, hqc⟩, hqs⟩, _⟩ := hq
  rcases Option.isSome_iff_exists.mp hpc with ⟨oc, hoc⟩
  rcases Option.isSome_iff_exists.mp hqc with ⟨nc, hnc⟩
  rcases Option.isSome_iff_exists.mp hps with ⟨st1, hst1⟩
  rcases Option.isSome_iff_exists.mp hqs with ⟨st2, hst2⟩
  rcases ownVal_fields p ov ho with ⟨os, hos, hpfo⟩
  rcases ownVal_fields q nv hn with ⟨ns, hns, hpfn⟩
  have hcc := comparePair_components p q oc nc os ns ov nv st1 st2 nm
    hoc hnc hos hns hpfo hpfn hst1 hst2 hw
  rw [comparePlayers_singleton p q i hpi hqi, hcc]
  constructor
  · by_cases h2 : (2 : ℚ) < |nv - ov|
    · simp [ownershipChangesOf, h2]
    · simp [ownershipChangesOf, h2]
  · intro fo fn hfo hfn
    by_cases h1 : (1 : ℚ) < |fn - fo|
    · simp [formChangesOf, formDelta, hfo, hfn, h1]
    · simp [formChangesOf, formDelta, hfo, hfn, h1]

/-- C5 witness: an ownership gap of exactly 2.0 is suppressed while
2.01 is reported, and a form gap of exactly 1.0 is suppressed while
1.01 is reported, on concrete records. -/
theorem c5_threshold_boundaries_witness :
    ownershipChangesOf (comparePlayers [wfP 1 "X" 1 500 "5" "a" none]
      [wfP 1 "X" 1 500 "7" "a" none]) = [] ∧
    ownershipChangesOf (comparePlayers [wfP 1 "X" 1 500 "5" "a" none]
      [wfP 1 "X" 1 500 "7.01" "a" none]) ≠ [] ∧
    formChangesOf (comparePlayers [wfP 1 "X" 1 500 "5" "a" (some "2")]
      [wfP 1 "X" 1 500 "5" "a" (some "3")]) = [] ∧
    formChangesOf (comparePlayers [wfP 1 "X" 1 500 "5" "a" (some "2")]
      [wfP 1 "X" 1 500 "5" "a" (some "3.01")]) ≠ [] := by
  have h1 := c5_threshold_boundaries (wfP 1 "X" 1 500 "5" "a" none)
    (wfP 1 "X" 1 500 "7" "a" none) 1 "X" 5 7 (by decide) (by decide) rfl rfl rfl
    (by with_unfolding_all decide) (by with_unfolding_all decide)
  have h2 := c5_threshold_boundaries (wfP 1 "X" 1 500 "5" "a" none)
    (wfP 1 "X" 1 500 "7.01" "a" none) 1 "X" 5 (701 / 100) (by decide) (by decide) rfl rfl rfl
    (by with_unfolding_all decide) (by with_unfolding_all decide)
  have h3 := c5_threshold_boundaries (wfP 1 "X" 1 500 "5" "a" (some "2"))
    (wfP 1 "X" 1 500 "5" "a" (some "3")) 1 "X" 5 5 (by decide) (by decide) rfl rfl rfl
    (by with_unfolding_all decide) (by with_unfolding_all decide)
  have h4 := c5_threshold_boundaries (wfP 1 "X" 1 500 "5" "a" (some "2"))
    (wfP 1 "X" 1 500 "5" "a" (some "3.01")) 1 "X" 5 5 (by decide) (by decide) rfl rfl rfl
    (by with_unfolding_all decide) (by with_unfolding_all decide)
  refine ⟨?_, ?_, ?_, ?_⟩
  · exact h1.1.trans (by with_unfolding_all decide)
  · rw [h2.1]
    with_unfolding_all decide
  · exact (h3.2 2 3 (by with_unfolding_all decide) (by with_unfolding_all decide)).trans
      (by with_unfolding_all decide)
  · rw [h4.2 2 (301 / 100) (by with_unfolding_all decide) (by with_unfolding_all decide)]
    with_unfolding_all decide

/-- C7: swapping the two snapshots exactly inverts the new/removed
player lists — the (name, team) sequences listed as new by
`compare(A, B)` coincide with those listed as removed by
`compare(B, A)`, and vice versa; as lists, hence also as sets. -/
theorem c7_new_removed_symmetry (A B : List PlayerRec) (c1 c2 : PlayerComparison)
    (h1 : comparePlayers A B = .ok c1) (h2 : comparePlayers B A = .ok c2) :
    c1.new_players.map (fun e => (e.name, e.team)) =
      c2.removed_players.map (fun e => (e.name, e.team)) ∧
    c1.removed_players.map (fun e => (e.name, e.team)) =
      c2.new_players.map (fun e => (e.name, e.team)) := by
  simp only [comparePlayers] at h1 h2
  cases ha : idsOf A with
  | error e => simp only [ha] at h1; exact Except.noConfusion h1
  | ok aIds =>
  cases hb : idsOf B with
  | error e => simp only [ha, hb] at h1; exact Except.noConfusion h1
  | ok bIds =>
  simp only [ha, hb] at h1 h2
  cases hn1 : mapME (fun i => mkNewEntry (lookupLast B i))
      ((dedupKeys bIds).filter (fun i => decide (i ∉ aIds))) with
  | error e => simp only [hn1] at h1; exact Except.noConfusion h1
  | ok nps1 =>
  simp only [hn1] at h1
  cases hr1 : mapME (fun i => mkRemovedEntry (lookupLast A i))
      ((dedupKeys aIds).filter (fun i => decide (i ∉ bIds))) with
  | error e => simp only [hr1] at h1; exact Except.noConfusion h1
  | ok rps1 =>
  simp only [hr1] at h1
  cases hd1 : mapME (pairAt A B) ((dedupKeys aIds).filter (fun i => decide (i ∈ bIds))) with
  | error e => simp only [hd1] at h1; exact Except.noConfusion h1
  | ok ds1 =>
  simp only [hd1] at h1
  cases hn2 : mapME (fun i => mkNewEntry (lookupLast A i))
      ((dedupKeys aIds).filter (fun i => decide (i ∉ bIds))) with
  | error e => simp only [hn2] at h2; exact Except.noConfusion h2
  | ok nps2 =>
  simp only [hn2] at h2
  cases hr2 : mapME (fun i => mkRemovedEntry (lookupLast B i))
      ((dedupKeys bIds).filter (fun i => decide (i ∉ aIds))) with
  | error e => simp only [hr2] at h2; exact Except.noConfusion h2
  | ok rps2 =>
  simp only [hr2] at h2
  cases hd2 : mapME (pairAt B A) ((dedupKeys bIds).filter (fun i => decide (i ∈ aIds))) with
  | error e => simp only [hd2] at h2; exact Except.noConfusion h2
  | ok ds2 =>
  simp only [hd2] at h2
  injection h1 with h1'
  injection h2 with h2'
  rw [← h1', ← h2']
  constructor
  · simpa using mapME_entries_agree B _ nps1 rps2 hn1 hr2
  · simpa using (mapME_entries_agree A _ nps2 rps1 hn2 hr1).symm

/-- C7 witness: with player A only in the older snapshot and player C
only in the newer one, the two swapped comparisons produce exactly
inverted new/removed lists. -/
theorem c7_new_removed_symmetry_witness :
    cAB.new_players.map (fun e => (e.name, e.team)) =
      cBA.removed_players.map (fun e => (e.name, e.team)) ∧
    cAB.removed_players.map (fun e => (e.name, e.team)) =
      cBA.new_players.map (fun e => (e.name, e.team)) :=
  c7_new_removed_symmetry [pA] [pC] cAB cBA (by with_unfolding_all rfl)
    (by with_unfolding_all rfl)

/-- C4: comparing any valid dataset against itself yields a result in
which all six player categories and both fixture categories are empty,
and the summary rendered from that result shows every count as zero. -/
theorem c4_compare_identity (D : Dataset) (h : validPlayers D.players = true) :
    compareData D D = .ok (⟨[], [], [], [], [], []⟩, ⟨[], []⟩) ∧
    summarySection ⟨[], [], [], [], [], []⟩ ⟨[], []⟩ =
      ["SUMMARY:", dashLine, "  Price changes: 0", "  Ownership changes: 0",
       "  Injury updates: 0", "  Form changes: 0", "  New players: 0",
       "  Removed players: 0", "  New results: 0"] := by
  refine ⟨?_, rfl⟩
  have hall := List.all_eq_true.mp h
  have hids : ∀ p ∈ D.players, p.id.isSome = true := by
    intro p hp
    have hv := hall p hp
    simp only [validRec, Bool.and_eq_true] at hv
    exact hv.1.1.1
  have hio := idsOf_ok D.players hids
  have hf1 : ((dedupKeys (idsEval D.players)).filter
      (fun i => decide (i ∉ idsEval D.players))) = [] := by
    rw [List.filter_eq_nil_iff]
    intro a ha
    have hmem := (mem_dedupKeys _ a).mp ha
    simp [hmem]
  have hcom : ∀ i ∈ ((dedupKeys (idsEval D.players)).filter
      (fun i => decide (i ∈ idsEval D.players))),
      pairAt D.players D.players i = .ok ⟨none, none, none, none⟩ := by
    intro i hi
    have hmem : i ∈ idsEval D.players :=
      (mem_dedupKeys _ i).mp (List.mem_filter.mp hi).1
    rcases lookupLast_isSome D.players i hmem with ⟨p, hlp, hpmem⟩
    simp only [pairAt, hlp]
    exact comparePair_self p (hall p hpmem)
  have hmap := mapME_ok (pairAt D.players D.players)
    (fun _ => (⟨none, none, none, none⟩ : Deltas)) _ hcom
  have hcp : comparePlayers D.players D.players = .ok ⟨[], [], [], [], [], []⟩ := by
    simp only [comparePlayers, hio, hf1, mapME, hmap]
    rw [filterMap_map_const_none _ _ Deltas.price rfl,
      filterMap_map_const_none _ _ Deltas.own rfl,
      filterMap_map_const_none _ _ Deltas.inj rfl,
      filterMap_map_const_none _ _ Deltas.frm rfl]
  simp [compareData, hcp, compareFixtures_self]

/-- C4 witness: the identity run on a concrete one-player, one-fixture
dataset. -/
theorem c4_compare_identity_witness :
    validPlayers wD.players = true ∧
    compareData wD wD = .ok (⟨[], [], [], [], [], []⟩, ⟨[], []⟩) :=
  ⟨by decide, (c4_compare_identity wD (by decide)).1⟩

/-- C6: in the rendered report the price, ownership and form sections
are stably sorted by delta magnitude descending (the sort is a
permutation, is sorted, and preserves the upstream relative order of
equal-magnitude entries) and capped at 20, 15 and 15 lines; the injury
section carries no numeric delta, so its stable sort degenerates to
upstream order, capped at 20 entries; each section's length equals its
cap or its full size, whichever is smaller; and the summary counts are
the full uncapped list lengths. -/
theorem c6_sections_sorted_capped (pc : PlayerComparison) (fc : FixtureComparison)
    (hp : pc.price_changes ≠ []) (ho : pc.ownership_changes ≠ [])
    (hf : pc.form_changes ≠ []) (hi : pc.injury_updates ≠ []) :
    List.Perm (sortDesc priceKey pc.price_changes) pc.price_changes ∧
    List.Pairwise (fun a b => priceKey b ≤ priceKey a) (sortDesc priceKey pc.price_changes) ∧
    (∀ k : ℚ, (sortDesc priceKey pc.price_changes).filter (fun e => decide (priceKey e = k)) =
      pc.price_changes.filter (fun e => decide (priceKey e = k))) ∧
    priceSection pc = "PRICE CHANGES:" :: dashLine ::
      (((sortDesc priceKey pc.price_changes).take 20).map priceLine ++ [""]) ∧
    (priceSection pc).length = min 20 pc.price_changes.length + 3 ∧
    List.Perm (sortDesc ownKey pc.ownership_changes) pc.ownership_changes ∧
    List.Pairwise (fun a b => ownKey b ≤ ownKey a) (sortDesc ownKey pc.ownership_changes) ∧
    (∀ k : ℚ, (sortDesc ownKey pc.ownership_changes).filter (fun e => decide (ownKey e = k)) =
      pc.ownership_changes.filter (fun e => decide (ownKey e = k))) ∧
    ownSection pc = "SIGNIFICANT OWNERSHIP CHANGES (>2%):" :: dashLine ::
      (((sortDesc ownKey pc.ownership_changes).take 15).map ownLine ++ [""]) ∧
    (ownSection pc).length = min 15 pc.ownership_changes.length + 3 ∧
    List.Perm (sortDesc formKey pc.form_changes) pc.form_changes ∧
    List.Pairwise (fun a b => formKey b ≤ formKey a) (sortDesc formKey pc.form_changes) ∧
    (∀ k : ℚ, (sortDesc formKey pc.form_changes).filter (fun e => decide (formKey e = k)) =
      pc.form_changes.filter (fun e => decide (formKey e = k))) ∧
    formSection pc = "SIGNIFICANT FORM CHANGES:" :: dashLine ::
      (((sortDesc formKey pc.form_changes).take 15).map formLine ++ [""]) ∧
    (formSection pc).length = min 15 pc.form_changes.length + 3 ∧
    injSection pc = "INJURY STATUS UPDATES:" :: dashLine ::
      ((pc.injury_updates.take 20).flatMap injLines ++ [""]) ∧
    summarySection pc fc = ["SUMMARY:", dashLine,
      "  Price changes: " ++ toString pc.price_changes.length,
      "  Ownership changes: " ++ toString pc.ownership_changes.length,
      "  Injury updates: " ++ toString pc.injury_updates.length,
      "  Form changes: " ++ toString pc.form_changes.length,
      "  New players: " ++ toString pc.new_players.length,
      "  Removed players: " ++ toString pc.removed_players.length,
      "  New results: " ++ toString fc.new_results.length] := by
  have hep : pc.price_changes.isEmpty = false := by
    cases hpc : pc.price_changes with
    | nil => exact absurd hpc hp
    | cons a l => rfl
  have heo : pc.ownership_changes.isEmpty = false := by
    cases hpc : pc.ownership_changes with
    | nil => exact absurd hpc ho
    | cons a l => rfl
  have hef : pc.form_changes.isEmpty = false := by
    cases hpc : pc.form_changes with
    | nil => exact absurd hpc hf
    | cons a l => rfl
  have hei : pc.injury_updates.isEmpty = false := by
    cases hpc : pc.injury_updates with
    | nil => exact absurd hpc hi
    | cons a l => rfl
  have e4 : priceSection pc = "PRICE CHANGES:" :: dashLine ::
      (((sortDesc priceKey pc.price_changes).take 20).map priceLine ++ [""]) := by
    simp [priceSection, hep]
  have e9 : ownSection pc = "SIGNIFICANT OWNERSHIP CHANGES (>2%):" :: dashLine ::
      (((sortDesc ownKey pc.ownership_changes).take 15).map ownLine ++ [""]) := by
    simp [ownSection, heo]
  have e14 : formSection pc = "SIGNIFICANT FORM CHANGES:" :: dashLine ::
      (((sortDesc formKey pc.form_changes).take 15).map formLine ++ [""]) := by
    simp [formSection, hef]
  have e16 : injSection pc = "INJURY STATUS UPDATES:" :: dashLine ::
      ((pc.injury_updates.take 20).flatMap injLines ++ [""]) := by
    simp [injSection, hei]
  have l5 : (priceSection pc).length = min 20 pc.price_changes.length + 3 := by
    rw [e4]
    simp only [List.length_cons, List.length_append, List.length_map, List.length_take,
      (sortDesc_perm priceKey pc.price_changes).length_eq, List.length_singleton,
      List.length_nil]
  have l10 : (ownSection pc).length = min 15 pc.ownership_changes.length + 3 := by
    rw [e9]
    simp only [List.length_cons, List.length_append, List.length_map, List.length_take,
      (sortDesc_perm ownKey pc.ownership_changes).length_eq, List.length_singleton,
      List.length_nil]
  have l15 : (formSection pc).length = min 15 pc.form_changes.length + 3 := by
    rw [e14]
    simp only [List.length_cons, List.length_append, List.length_map, List.length_take,
      (sortDesc_perm formKey pc.form_changes).length_eq, List.length_singleton,
      List.length_nil]
  exact ⟨sortDesc_perm _ _, sortDesc_pairwise _ _, fun k => sortDesc_filter _ _ k, e4, l5,
    sortDesc_perm _ _, sortDesc_pairwise _ _, fun k => sortDesc_filter _ _ k, e9, l10,
    sortDesc_perm _ _, sortDesc_pairwise _ _, fun k => sortDesc_filter _ _ k, e14, l15,
    e16, rfl⟩

/-- C6 witness: the sort/cap/count facts instantiated on a concrete
comparison result with every section populated (including a magnitude
tie among the price changes). -/
theorem c6_sections_sorted_capped_witness :
    List.Perm (sortDesc priceKey pc6.price_changes) pc6.price_changes ∧
    (priceSection pc6).length = min 20 pc6.price_changes.length + 3 ∧
    (ownSection pc6).length = min 15 pc6.ownership_changes.length + 3 ∧
    injSection pc6 = "INJURY STATUS UPDATES:" :: dashLine ::
      ((pc6.injury_updates.take 20).flatMap injLines ++ [""]) ∧
    summarySection pc6 fc6 = ["SUMMARY:", dashLine,
      "  Price changes: " ++ toString pc6.price_changes.length,
      "  Ownership changes: " ++ toString pc6.ownership_changes.length,
      "  Injury updates: " ++ toString pc6.injury_updates.length,
      "  Form changes: " ++ toString pc6.form_changes.length,
      "  New players: " ++ toString pc6.new_players.length,
      "  Removed players: " ++ toString pc6.removed_players.length,
      "  New results: " ++ toString fc6.new_results.length] := by
  have h := c6_sections_sorted_capped pc6 fc6 (by decide) (by decide) (by decide) (by decide)
  exact ⟨h.1, h.2.2.2.2.1, h.2.2.2.2.2.2.2.2.2.1,
    h.2.2.2.2.2.2.2.2.2.2.2.2.2.2.2.1, h.2.2.2.2.2.2.2.2.2.2.2.2.2.2.2.2⟩

/-- C1 (amended): every rendered report — for any pair of comparison
results, including the all-empty one — ends with the summary section,
whose count lines cover exactly the seven categories price changes,
ownership changes, injury updates, form changes, new players, removed
players and new results, with the full list lengths as counts; there is
no count line for the fixture-time-changes category. -/
theorem c1_summary_always (date1 date2 : String) (pc : PlayerComparison)
    (fc : FixtureComparison) :
    ∃ pre, generateReport date1 date2 pc fc = pre ++
      ["SUMMARY:", dashLine,
       "  Price changes: " ++ toString pc.price_changes.length,
       "  Ownership changes: " ++ toString pc.ownership_changes.length,
       "  Injury updates: " ++ toString pc.injury_updates.length,
       "  Form changes: " ++ toString pc.form_changes.length,
       "  New players: " ++ toString pc.new_players.length,
       "  Removed players: " ++ toString pc.removed_players.length,
       "  New results: " ++ toString fc.new_results.length] := by
  refine ⟨[eqLine, "FPL DATA COMPARISON REPORT",
      "Comparing: " ++ date1 ++ " -> " ++ date2, eqLine, ""] ++ priceSection pc ++
      ownSection pc ++ injSection pc ++ formSection pc ++ newSection pc ++
      removedSection pc ++ resultsSection fc, ?_⟩
  simp [generateReport, summarySection, List.append_assoc]

/-- C1 counterexample: a comparison whose only content is a single
fixture-time change renders a report that is exactly the header plus
seven all-zero count lines — the summary has no count line for the
fixture-time-changes category; indeed no line of the report even
contains the digit 1 although that category's count is 1. -/
theorem c1_counterexample :
    fcOne.fixture_changes.length = 1 ∧
    generateReport "a" "b" pcEmpty fcOne =
      [eqLine, "FPL DATA COMPARISON REPORT", "Comparing: a -> b", eqLine, "",
       "SUMMARY:", dashLine, "  Price changes: 0", "  Ownership changes: 0",
       "  Injury updates: 0", "  Form changes: 0", "  New players: 0",
       "  Removed players: 0", "  New results: 0"] ∧
    (generateReport "a" "b" pcEmpty fcOne).all (fun l => !(l.toList.contains '1')) = true := by
  refine ⟨rfl, by decide, by decide⟩
